import Mathlib

/-!
Shallow embedding of the entitlement engine of the AI review reply
generator: the daily usage counter (usage.server), the subscription
resolver and initiator (billing.server), and the request handler
composition (the loader and action of the main app route).

Remote effects (GraphQL reads and writes, the OpenAI call) are modelled
denotationally: each operation takes the outcome of its external calls
as an explicit argument (an `Except String` value for a call that can
throw), and stateful code is written as explicit state passing over the
stored metafield value.  Timestamps are integer milliseconds since the
epoch; calendar dates are the ISO `YYYY-MM-DD` strings the source
compares for equality.
-/

namespace AIReview

/-! ## Usage counter (usage.server) -/

/-- Fixed daily ceiling, `const DAILY_LIMIT = 100` in the source. -/
def DAILY_LIMIT : Nat := 100

/-- The `DailyUsage` record stored as JSON in the shop metafield:
`{ count: number, date: string }` with `date` an ISO `YYYY-MM-DD` day. -/
structure DailyUsage where
  count : Nat
  date : String
deriving DecidableEq, Repr

/-- Content of the `ai_reply.daily_usage` metafield as the store can
return it: no value present, a value that fails to parse as JSON, or a
parsed `DailyUsage` record. -/
inductive StoredValue where
  | absent
  | malformed
  | valid (u : DailyUsage)
deriving DecidableEq, Repr

/-- Embeds `getDailyUsage`: returns `null` when the metafield has no
value, swallows a JSON parse failure into `null`, and otherwise returns
the parsed record. -/
def getDailyUsage : StoredValue → Option DailyUsage
  | .absent => none
  | .malformed => none
  | .valid u => some u

/-- Embeds `getCurrentUsageCount` (the `peek` of the spec): 0 when no
record exists or its date is not today, otherwise the stored count. -/
def getCurrentUsageCount (today : String) (s : StoredValue) : Nat :=
  match getDailyUsage s with
  | none => 0
  | some u => if u.date ≠ today then 0 else u.count

/-- The `{ allowed, currentCount }` object `checkAndIncrementUsage`
returns. -/
structure UsageDecision where
  allowed : Bool
  currentCount : Nat
deriving DecidableEq, Repr

/-- Observable outcome of one `checkAndIncrementUsage` call: the
returned decision, the metafield content after the call, and the value
written by `saveDailyUsage` when a write occurred. -/
structure UsageStepResult where
  decision : UsageDecision
  store : StoredValue
  wrote : Option DailyUsage
deriving DecidableEq, Repr

/-- Embeds `checkAndIncrementUsage` in the run where the store read and
the `saveDailyUsage` write both succeed: reset to `{count: 1, date:
today}` when the record is absent, unparseable or stale; deny without a
write at or above `DAILY_LIMIT`; otherwise increment and save. -/
def checkAndIncrementUsage (today : String) (s : StoredValue) : UsageStepResult :=
  match getDailyUsage s with
  | none => ⟨⟨true, 1⟩, .valid ⟨1, today⟩, some ⟨1, today⟩⟩
  | some u =>
    if u.date ≠ today then
      ⟨⟨true, 1⟩, .valid ⟨1, today⟩, some ⟨1, today⟩⟩
    else if DAILY_LIMIT ≤ u.count then
      ⟨⟨false, u.count⟩, s, none⟩
    else
      ⟨⟨true, u.count + 1⟩, .valid ⟨u.count + 1, today⟩, some ⟨u.count + 1, today⟩⟩

/-- Embeds `checkAndIncrementUsage` with its external calls explicit:
`rd` is the outcome of the metafield read (a thrown read propagates) and
`wr` the outcome of `saveDailyUsage` (consulted only on branches that
write; a thrown write propagates). -/
def checkAndIncrementUsageE (today : String) (rd : Except String StoredValue)
    (wr : Except String Unit) : Except String UsageStepResult :=
  match rd with
  | .error m => .error m
  | .ok s =>
    match getDailyUsage s with
    | none =>
      match wr with
      | .error m => .error m
      | .ok _ => .ok ⟨⟨true, 1⟩, .valid ⟨1, today⟩, some ⟨1, today⟩⟩
    | some u =>
      if u.date ≠ today then
        match wr with
        | .error m => .error m
        | .ok _ => .ok ⟨⟨true, 1⟩, .valid ⟨1, today⟩, some ⟨1, today⟩⟩
      else if DAILY_LIMIT ≤ u.count then
        .ok ⟨⟨false, u.count⟩, s, none⟩
      else
        match wr with
        | .error m => .error m
        | .ok _ =>
          .ok ⟨⟨true, u.count + 1⟩, .valid ⟨u.count + 1, today⟩, some ⟨u.count + 1, today⟩⟩

/-- Metafield content after `n` sequential `checkAndIncrementUsage`
calls on the same day, all reads and writes succeeding. -/
def usageIter (today : String) (s : StoredValue) : Nat → StoredValue
  | 0 => s
  | n + 1 => (checkAndIncrementUsage today (usageIter today s n)).store

/-- Metafield content after one `checkAndIncrementUsage` call per entry
of `ds`, where each entry is the value of `today` at that call (days may
roll over between calls); all reads and writes succeed. -/
def usageFold (ds : List String) (s : StoredValue) : StoredValue :=
  ds.foldl (fun st d => (checkAndIncrementUsage d st).store) s

/-! ## Subscription resolver and initiator (billing.server) -/

/-- One element of `currentAppInstallation.activeSubscriptions` as the
resolver reads it: `createdAt` is epoch milliseconds when present, and
`trialDays` is absent when the provider did not supply one. -/
structure SubscriptionSnapshot where
  name : String
  status : String
  createdAt : Option Int
  trialDays : Option Int
deriving DecidableEq, Repr

/-- The `{ hasAccess, isTrial, daysRemaining? }` object
`checkActiveSubscription` returns. -/
structure EntitlementState where
  hasAccess : Bool
  isTrial : Bool
  daysRemaining : Option Int
deriving DecidableEq, Repr

/-- Milliseconds per day, the `1000 * 60 * 60 * 24` of the source. -/
def msPerDay : Int := 1000 * 60 * 60 * 24

/-- Ceiling of `a / b` for `b > 0`, as `Math.ceil` computes it on the
exact quotient: `-fdiv (-a) b`. -/
def ceilDivInt (a b : Int) : Int := -((-a).fdiv b)

/-- Embeds `subscription.trialDays || 14`: JavaScript `||` falls back to
14 both when the provider supplied no value and when it supplied the
falsy value 0. -/
def trialDaysUsed : Option Int → Int
  | none => 14
  | some d => if d = 0 then 14 else d

/-- Embeds `checkActiveSubscription`: select the first subscription
named `pro_monthly`; `ACTIVE` means paid access; `ACCEPTED` or `TRIAL`
mean a trial whose window is `createdAt + trialDays` days (`setDate` on
a timezone-free clock, i.e. `trialDays * msPerDay` milliseconds), with a
fail-open grant when `createdAt` is missing; anything else, or no match,
denies. -/
def checkActiveSubscription (now : Int) (subs : List SubscriptionSnapshot) :
    EntitlementState :=
  match subs.find? (fun sub => sub.name == "pro_monthly") with
  | none => ⟨false, false, none⟩
  | some sub =>
    if sub.status = "ACTIVE" then ⟨true, false, none⟩
    else if sub.status = "ACCEPTED" ∨ sub.status = "TRIAL" then
      match sub.createdAt with
      | none => ⟨true, true, none⟩
      | some createdAt =>
        let trialEnd := createdAt + trialDaysUsed sub.trialDays * msPerDay
        if now ≤ trialEnd then
          ⟨true, true, some (ceilDivInt (trialEnd - now) msPerDay)⟩
        else
          ⟨false, false, none⟩
    else ⟨false, false, none⟩

/-- The `data.appSubscriptionCreate` payload of the reply of the provider to
`appSubscriptionCreate`: the user error messages and the confirmation
URL when one was returned. -/
structure SubCreatePayload where
  userErrors : List String
  confirmationUrl : Option String
deriving DecidableEq, Repr

/-- Embeds `createSubscription` applied to the reply of the provider
(`none` models a reply whose optional-chained payload is missing): a
non-empty error list throws an error enumerating every message; a
missing (or falsy empty) confirmation URL throws the distinct
missing-URL error; otherwise the URL is returned. -/
def createSubscription (payload : Option SubCreatePayload) : Except String String :=
  match payload with
  | none => .error "No confirmation URL returned from subscription creation"
  | some p =>
    if 0 < p.userErrors.length then
      .error ("Failed to create subscription: " ++ String.intercalate ", " p.userErrors)
    else
      match p.confirmationUrl with
      | none => .error "No confirmation URL returned from subscription creation"
      | some url =>
        if url = "" then .error "No confirmation URL returned from subscription creation"
        else .ok url

/-! ## Request handler composition (app._index route) -/

/-- The `{ reply, error? }` object the action returns to the page. -/
structure ActionResult where
  reply : String
  error : Option String
deriving DecidableEq, Repr

/-- Outcome of one action run, instrumented with whether the usage
counter and the generation call were invoked (the counting-stub
observation of the spec). -/
structure ActionTrace where
  result : ActionResult
  usageCalled : Bool
  genCalled : Bool
deriving DecidableEq, Repr

/-- JavaScript falsiness of a form field: `formData.get` returns `null`
for a missing field, and `!message` also rejects the empty string. -/
def fieldMissing : Option String → Bool
  | none => true
  | some s => s = ""

/-- Embeds the route `action`: the subscription gate (a thrown check is
caught and access is allowed), the form validation, the usage gate
(any throw from `checkAndIncrementUsage` is caught and denied with a
generic message), and finally the generation call, whose outcome `gen`
is returned as the reply or as its error message. -/
def action (subCheck : Except String EntitlementState) (message tone : Option String)
    (today : String) (rd : Except String StoredValue) (wr : Except String Unit)
    (gen : Except String String) : ActionTrace :=
  let subDenied : Bool :=
    match subCheck with
    | .ok st => !st.hasAccess
    | .error _ => false
  if subDenied then
    ⟨⟨"", some "Subscription required. Your trial has expired or no active subscription found."⟩,
      false, false⟩
  else if fieldMissing message || fieldMissing tone then
    ⟨⟨"", some "Message and tone are required"⟩, false, false⟩
  else
    match checkAndIncrementUsageE today rd wr with
    | .error _ => ⟨⟨"", some "Failed to check usage limit. Please try again."⟩, true, false⟩
    | .ok r =>
      if !r.decision.allowed then
        ⟨⟨"", some "Daily limit of 100 replies reached"⟩, true, false⟩
      else
        match gen with
        | .ok reply => ⟨⟨reply, none⟩, true, true⟩
        | .error m => ⟨⟨"", some m⟩, true, true⟩

/-- The data object the route `loader` returns to the page. -/
structure LoaderData where
  hasSubscription : Bool
  confirmationUrl : Option String
  usageCount : Nat
  isTrial : Bool
  daysRemaining : Option Int
deriving DecidableEq, Repr

/-- Embeds the route `loader`: a thrown subscription check is caught and
access is allowed; a tenant without access is offered a confirmation URL
from `createSubscription`, whose failure also falls back to allowing
access; the usage count display falls back to 0 when the counter read
throws. -/
def loader (subCheck : Except String EntitlementState)
    (createSub : Except String String) (today : String)
    (rd : Except String StoredValue) : LoaderData :=
  let usageCount : Nat :=
    match rd with
    | .ok s => getCurrentUsageCount today s
    | .error _ => 0
  match subCheck with
  | .error _ => ⟨true, none, usageCount, false, none⟩
  | .ok st =>
    if !st.hasAccess then
      match createSub with
      | .ok url => ⟨false, some url, 0, false, none⟩
      | .error _ => ⟨true, none, usageCount, false, none⟩
    else
      ⟨true, none, usageCount, st.isTrial, st.daysRemaining⟩

/-- Written from the claim C4 wording, for comparison with the source:
trial days default to 14 exactly when the provider did not supply a
value, and a provider-supplied value is used as given. -/
def specTrialDaysC4 : Option Int → Int
  | none => 14
  | some d => d

/-- Inductive invariant of the stored usage record: it is absent or a
valid record whose count lies in `1 .. DAILY_LIMIT`. -/
def UsageInv (s : StoredValue) : Prop :=
  s = .absent ∨ ∃ u, s = .valid u ∧ 1 ≤ u.count ∧ u.count ≤ DAILY_LIMIT

/-! ## Usage counter lemmas -/

theorem checkAndIncrement_valid_today (today : String) (m : Nat) :
    checkAndIncrementUsage today (.valid ⟨m, today⟩) =
      if DAILY_LIMIT ≤ m then ⟨⟨false, m⟩, .valid ⟨m, today⟩, none⟩
      else ⟨⟨true, m + 1⟩, .valid ⟨m + 1, today⟩, some ⟨m + 1, today⟩⟩ := by
  simp [checkAndIncrementUsage, getDailyUsage]

theorem usageIter_absent (today : String) :
    ∀ n, usageIter today .absent (n + 1) = .valid ⟨min (n + 1) DAILY_LIMIT, today⟩ := by
  intro n
  induction n with
  | zero =>
    have h1 : min 1 DAILY_LIMIT = 1 := by simp [DAILY_LIMIT]
    rw [usageIter, usageIter, h1]
    rfl
  | succ k ih =>
    rcases le_or_lt DAILY_LIMIT (k + 1) with h | h
    · have h1 : min (k + 1) DAILY_LIMIT = DAILY_LIMIT := by omega
      have h2 : min (k + 1 + 1) DAILY_LIMIT = DAILY_LIMIT := by omega
      rw [usageIter, ih, h1, h2, checkAndIncrement_valid_today, if_pos (le_refl _)]
    · have h1 : min (k + 1) DAILY_LIMIT = k + 1 := by omega
      have h2 : min (k + 1 + 1) DAILY_LIMIT = k + 1 + 1 := by omega
      rw [usageIter, ih, h1, h2, checkAndIncrement_valid_today, if_neg (by omega)]

theorem step_preserves_inv (d : String) (s : StoredValue) (h : UsageInv s) :
    UsageInv (checkAndIncrementUsage d s).store := by
  rcases h with h | ⟨u, hu, h1, h2⟩
  · subst h
    exact Or.inr ⟨⟨1, d⟩, rfl, le_refl 1, by simp [DAILY_LIMIT]⟩
  · subst hu
    by_cases hd : u.date ≠ d
    · rw [checkAndIncrementUsage]
      simp only [getDailyUsage, if_pos hd]
      exact Or.inr ⟨⟨1, d⟩, rfl, le_refl 1, by simp [DAILY_LIMIT]⟩
    · by_cases hl : DAILY_LIMIT ≤ u.count
      · rw [checkAndIncrementUsage]
        simp only [getDailyUsage, if_neg hd, if_pos hl]
        exact Or.inr ⟨u, rfl, h1, h2⟩
      · rw [checkAndIncrementUsage]
        simp only [getDailyUsage, if_neg hd, if_neg hl]
        exact Or.inr ⟨⟨u.count + 1, d⟩, rfl,
          by show 1 ≤ u.count + 1; omega, by show u.count + 1 ≤ DAILY_LIMIT; omega⟩

theorem usageFold_inv (ds : List String) (s : StoredValue) (h : UsageInv s) :
    UsageInv (usageFold ds s) := by
  induction ds generalizing s with
  | nil => exact h
  | cons d ds ih => exact ih _ (step_preserves_inv d s h)

theorem wrote_bounded (d : String) (s : StoredValue) (w : DailyUsage)
    (h : (checkAndIncrementUsage d s).wrote = some w) :
    1 ≤ w.count ∧ w.count ≤ DAILY_LIMIT ∧ w.date = d := by
  cases s with
  | absent =>
    injection h with h
    rw [← h]
    exact ⟨le_refl 1, by simp [DAILY_LIMIT], rfl⟩
  | malformed =>
    injection h with h
    rw [← h]
    exact ⟨le_refl 1, by simp [DAILY_LIMIT], rfl⟩
  | valid u =>
    by_cases hd : u.date ≠ d
    · rw [checkAndIncrementUsage] at h
      simp only [getDailyUsage, if_pos hd] at h
      injection h with h
      rw [← h]
      exact ⟨le_refl 1, by simp [DAILY_LIMIT], rfl⟩
    · by_cases hl : DAILY_LIMIT ≤ u.count
      · rw [checkAndIncrementUsage] at h
        simp only [getDailyUsage, if_neg hd, if_pos hl] at h
        cases h
      · rw [checkAndIncrementUsage] at h
        simp only [getDailyUsage, if_neg hd, if_neg hl] at h
        injection h with h
        rw [← h]
        exact ⟨by show 1 ≤ u.count + 1; omega, by show u.count + 1 ≤ DAILY_LIMIT; omega, rfl⟩

theorem store_date (d : String) (s : StoredValue) (u : DailyUsage)
    (h : (checkAndIncrementUsage d s).store = .valid u) : u.date = d := by
  cases s with
  | absent => injection h with h; rw [← h]
  | malformed => injection h with h; rw [← h]
  | valid v =>
    by_cases hd : v.date ≠ d
    · rw [checkAndIncrementUsage] at h
      simp only [getDailyUsage, if_pos hd] at h
      injection h with h
      rw [← h]
    · by_cases hl : DAILY_LIMIT ≤ v.count
      · rw [checkAndIncrementUsage] at h
        simp only [getDailyUsage, if_neg hd, if_pos hl] at h
        injection h with h
        rw [← h]
        exact not_not.mp hd
      · rw [checkAndIncrementUsage] at h
        simp only [getDailyUsage, if_neg hd, if_neg hl] at h
        injection h with h
        rw [← h]

/-! ## Claims about the usage counter -/

/-- C1: starting a day with no stored record, the call made after `n`
prior calls returns `allowed = true` with `currentCount = n + 1` while
`n < DAILY_LIMIT`; every later call returns `allowed = false` with
`currentCount = DAILY_LIMIT` and performs no write; after the first
call, `peek` (`getCurrentUsageCount`) returns 1. -/
theorem C1_sequential_day (today : String) (n : Nat) :
    (n < DAILY_LIMIT →
      checkAndIncrementUsage today (usageIter today .absent n) =
        ⟨⟨true, n + 1⟩, .valid ⟨n + 1, today⟩, some ⟨n + 1, today⟩⟩) ∧
    (DAILY_LIMIT ≤ n →
      checkAndIncrementUsage today (usageIter today .absent n) =
        ⟨⟨false, DAILY_LIMIT⟩, .valid ⟨DAILY_LIMIT, today⟩, none⟩) ∧
    getCurrentUsageCount today (usageIter today .absent 1) = 1 := by
  refine ⟨?_, ?_, ?_⟩
  · intro h
    cases n with
    | zero => rfl
    | succ m =>
      have h1 : min (m + 1) DAILY_LIMIT = m + 1 := by omega
      rw [usageIter_absent, h1, checkAndIncrement_valid_today, if_neg (by omega)]
  · intro h
    cases n with
    | zero => exact absurd h (by simp [DAILY_LIMIT])
    | succ m =>
      have h1 : min (m + 1) DAILY_LIMIT = DAILY_LIMIT := by omega
      rw [usageIter_absent, h1, checkAndIncrement_valid_today, if_pos (le_refl _)]
  · have h1 : min (0 + 1) DAILY_LIMIT = 1 := by simp [DAILY_LIMIT]
    have h2 := usageIter_absent today 0
    rw [h1] at h2
    rw [show (1 : Nat) = 0 + 1 from rfl, h2]
    simp [getCurrentUsageCount, getDailyUsage]

theorem C1_sequential_day_witness :
    (0 < DAILY_LIMIT ∧
      checkAndIncrementUsage "2026-10-11" (usageIter "2026-10-11" .absent 0) =
        ⟨⟨true, 1⟩, .valid ⟨1, "2026-10-11"⟩, some ⟨1, "2026-10-11"⟩⟩) ∧
    (DAILY_LIMIT ≤ 100 ∧
      checkAndIncrementUsage "2026-10-11" (usageIter "2026-10-11" .absent 100) =
        ⟨⟨false, DAILY_LIMIT⟩, .valid ⟨DAILY_LIMIT, "2026-10-11"⟩, none⟩) ∧
    getCurrentUsageCount "2026-10-11" (usageIter "2026-10-11" .absent 1) = 1 :=
  ⟨⟨by decide, (C1_sequential_day "2026-10-11" 0).1 (by decide)⟩,
   ⟨by decide, (C1_sequential_day "2026-10-11" 100).2.1 (by decide)⟩,
   (C1_sequential_day "2026-10-11" 1).2.2⟩

/-- C5: a stored value that is absent, fails to parse, or carries a
date other than today makes `checkAndIncrementUsage` write a fresh
`{count: 1, date: today}` record and return `{allowed: true,
currentCount: 1}` regardless of the prior count, and a malformed stored
value is never propagated as an error. -/
theorem C5_reset_on_stale_or_malformed (today : String) (s : StoredValue)
    (h : getDailyUsage s = none ∨ ∀ u, getDailyUsage s = some u → u.date ≠ today) :
    checkAndIncrementUsage today s = ⟨⟨true, 1⟩, .valid ⟨1, today⟩, some ⟨1, today⟩⟩ ∧
    checkAndIncrementUsageE today (.ok .malformed) (.ok ()) =
      .ok ⟨⟨true, 1⟩, .valid ⟨1, today⟩, some ⟨1, today⟩⟩ := by
  refine ⟨?_, rfl⟩
  cases s with
  | absent => rfl
  | malformed => rfl
  | valid u =>
    have hne : u.date ≠ today := by
      rcases h with h | h
      · exact absurd h (by simp [getDailyUsage])
      · exact h u rfl
    rw [checkAndIncrementUsage]
    simp only [getDailyUsage, if_pos hne]

theorem C5_reset_witness :
    checkAndIncrementUsage "2026-10-11" (.valid ⟨777, "2026-10-10"⟩) =
      ⟨⟨true, 1⟩, .valid ⟨1, "2026-10-11"⟩, some ⟨1, "2026-10-11"⟩⟩ ∧
    checkAndIncrementUsageE "2026-10-11" (.ok .malformed) (.ok ()) =
      .ok ⟨⟨true, 1⟩, .valid ⟨1, "2026-10-11"⟩, some ⟨1, "2026-10-11"⟩⟩ :=
  C5_reset_on_stale_or_malformed "2026-10-11" (.valid ⟨777, "2026-10-10"⟩)
    (Or.inr (fun u hu => by injection hu with hu; rw [← hu]; decide))

/-- C10: from an absent stored record, any sequence of sequential
`checkAndIncrementUsage` calls with succeeding writes keeps the stored
record (when present) within `1 .. DAILY_LIMIT`; no call ever writes a
count above `DAILY_LIMIT`, and the record left by a call carries the day of
that call. -/
theorem C10_counter_invariant :
    (∀ ds u, usageFold ds .absent = .valid u → 1 ≤ u.count ∧ u.count ≤ DAILY_LIMIT) ∧
    (∀ d s w, (checkAndIncrementUsage d s).wrote = some w →
      w.count ≤ DAILY_LIMIT ∧ w.date = d) ∧
    (∀ d s u, (checkAndIncrementUsage d s).store = .valid u → u.date = d) := by
  refine ⟨?_, ?_, ?_⟩
  · intro ds u h
    rcases usageFold_inv ds .absent (Or.inl rfl) with h2 | ⟨v, hv, h1, h2⟩
    · rw [h] at h2; cases h2
    · rw [h] at hv
      injection hv with hv
      exact ⟨hv ▸ h1, hv ▸ h2⟩
  · intro d s w h
    exact ⟨(wrote_bounded d s w h).2.1, (wrote_bounded d s w h).2.2⟩
  · exact store_date

theorem C10_counter_invariant_witness :
    usageFold ["2026-10-11"] .absent = .valid ⟨1, "2026-10-11"⟩ ∧
    (1 ≤ (1 : Nat) ∧ (1 : Nat) ≤ DAILY_LIMIT) :=
  ⟨by decide, C10_counter_invariant.1 ["2026-10-11"] ⟨1, "2026-10-11"⟩ (by decide)⟩

/-! ## Subscription resolver lemmas -/

theorem checkActive_trial (now : Int) (subs : List SubscriptionSnapshot)
    (sub : SubscriptionSnapshot) (c : Int)
    (hf : subs.find? (fun s => s.name == "pro_monthly") = some sub)
    (hs : sub.status = "ACCEPTED" ∨ sub.status = "TRIAL")
    (hc : sub.createdAt = some c) :
    checkActiveSubscription now subs =
      if now ≤ c + trialDaysUsed sub.trialDays * msPerDay then
        ⟨true, true,
          some (ceilDivInt (c + trialDaysUsed sub.trialDays * msPerDay - now) msPerDay)⟩
      else ⟨false, false, none⟩ := by
  have hA : ¬ sub.status = "ACTIVE" := by
    rcases hs with h | h <;> rw [h] <;> decide
  rw [checkActiveSubscription, hf]
  simp only [if_neg hA, if_pos hs, hc]

/-! ## Claims about the subscription resolver and initiator -/

/-- C2: the resolver classifies the selected `pro_monthly` subscription
by the spec table: `ACTIVE` grants non-trial access; `ACCEPTED` created
5 days ago with 14 trial days grants trial access with 9 days
remaining; `ACCEPTED` created 20 days ago with 14 trial days denies;
`DECLINED` denies for any creation date; and an absent match denies. -/
theorem C2_classification (now : Int) (subs : List SubscriptionSnapshot) :
    (∀ sub, subs.find? (fun s => s.name == "pro_monthly") = some sub →
      (sub.status = "ACTIVE" → checkActiveSubscription now subs = ⟨true, false, none⟩) ∧
      (sub.status = "ACCEPTED" → sub.createdAt = some (now - 5 * msPerDay) →
        sub.trialDays = some 14 → checkActiveSubscription now subs = ⟨true, true, some 9⟩) ∧
      (sub.status = "ACCEPTED" → sub.createdAt = some (now - 20 * msPerDay) →
        sub.trialDays = some 14 → checkActiveSubscription now subs = ⟨false, false, none⟩) ∧
      (sub.status = "DECLINED" → checkActiveSubscription now subs = ⟨false, false, none⟩)) ∧
    (subs.find? (fun s => s.name == "pro_monthly") = none →
      checkActiveSubscription now subs = ⟨false, false, none⟩) := by
  have hm : msPerDay = 86400000 := rfl
  refine ⟨fun sub hf => ⟨?_, ?_, ?_, ?_⟩, ?_⟩
  · intro hst
    simp [checkActiveSubscription, hf, hst]
  · intro hst hc htr
    rw [checkActive_trial now subs sub (now - 5 * msPerDay) hf (Or.inl hst) hc, htr]
    rw [show trialDaysUsed (some 14) = 14 from rfl]
    rw [show now - 5 * msPerDay + 14 * msPerDay = now + 9 * msPerDay from by ring]
    rw [if_pos (by omega)]
    rw [show now + 9 * msPerDay - now = 9 * msPerDay from by ring]
    rw [show ceilDivInt (9 * msPerDay) msPerDay = 9 from by decide]
  · intro hst hc htr
    rw [checkActive_trial now subs sub (now - 20 * msPerDay) hf (Or.inl hst) hc, htr]
    rw [show trialDaysUsed (some 14) = 14 from rfl]
    rw [show now - 20 * msPerDay + 14 * msPerDay = now - 6 * msPerDay from by ring]
    rw [if_neg (by omega)]
  · intro hst
    simp [checkActiveSubscription, hf, hst]
  · intro hf
    simp [checkActiveSubscription, hf]

theorem C2_classification_witness :
    checkActiveSubscription 0
      [⟨"other", "DECLINED", none, none⟩, ⟨"pro_monthly", "ACTIVE", none, none⟩] =
      ⟨true, false, none⟩ :=
  ((C2_classification 0
      [⟨"other", "DECLINED", none, none⟩, ⟨"pro_monthly", "ACTIVE", none, none⟩]).1
    ⟨"pro_monthly", "ACTIVE", none, none⟩ (by decide)).1 rfl

/-- C9: a trial-eligible subscription (`ACCEPTED` or `TRIAL`) selected
by name whose `createdAt` is missing makes the resolver fail open with
`{hasAccess: true, isTrial: true}` and no `daysRemaining`. -/
theorem C9_missing_createdAt (now : Int) (subs : List SubscriptionSnapshot)
    (sub : SubscriptionSnapshot)
    (hf : subs.find? (fun s => s.name == "pro_monthly") = some sub)
    (hs : sub.status = "ACCEPTED" ∨ sub.status = "TRIAL")
    (hc : sub.createdAt = none) :
    checkActiveSubscription now subs = ⟨true, true, none⟩ := by
  have hA : ¬ sub.status = "ACTIVE" := by
    rcases hs with h | h <;> rw [h] <;> decide
  rw [checkActiveSubscription, hf]
  simp only [if_neg hA, if_pos hs, hc]

theorem C9_missing_createdAt_witness :
    checkActiveSubscription 0 [⟨"pro_monthly", "TRIAL", none, some 14⟩] =
      ⟨true, true, none⟩ :=
  C9_missing_createdAt 0 [⟨"pro_monthly", "TRIAL", none, some 14⟩]
    ⟨"pro_monthly", "TRIAL", none, some 14⟩ (by decide) (Or.inr rfl) rfl

/-- C4 counterexample: for a trial subscription whose provider-supplied
`trialDays` is 0 the code falls back to 14 (JavaScript `||` treats 0 as
absent) and grants access 5 days after creation, while the
use-a-supplied-value-as-given reading of the claim puts `trialEnd = createdAt` in
the past and predicts denial. -/
theorem C4_counterexample :
    (checkActiveSubscription 0
      [⟨"pro_monthly", "ACCEPTED", some (-5 * msPerDay), some 0⟩]).hasAccess = true ∧
    ¬ ((0 : Int) ≤ -5 * msPerDay + specTrialDaysC4 (some 0) * msPerDay) :=
  ⟨by decide, by decide⟩

/-- C4 (amended): for a trial-eligible selected subscription with
`createdAt` present, the resolver uses `trialEnd = createdAt +
trialDays` days where `trialDays` falls back to 14 when the provider
supplied no value or the falsy value 0 and is otherwise used as given;
access is granted iff `now ≤ trialEnd`, with `daysRemaining =
ceil((trialEnd - now) in days)`, which is 0 when `now` reaches
`trialEnd` exactly while access is still granted; past `trialEnd` the
result is `{hasAccess: false, isTrial: false}`. -/
theorem C4_trial_window (now : Int) (subs : List SubscriptionSnapshot)
    (sub : SubscriptionSnapshot) (c : Int)
    (hf : subs.find? (fun s => s.name == "pro_monthly") = some sub)
    (hs : sub.status = "ACCEPTED" ∨ sub.status = "TRIAL")
    (hc : sub.createdAt = some c) :
    checkActiveSubscription now subs =
      (if now ≤ c + trialDaysUsed sub.trialDays * msPerDay then
        ⟨true, true,
          some (ceilDivInt (c + trialDaysUsed sub.trialDays * msPerDay - now) msPerDay)⟩
      else ⟨false, false, none⟩) ∧
    ((checkActiveSubscription now subs).hasAccess = true ↔
      now ≤ c + trialDaysUsed sub.trialDays * msPerDay) ∧
    (now = c + trialDaysUsed sub.trialDays * msPerDay →
      checkActiveSubscription now subs = ⟨true, true, some 0⟩) := by
  have h1 := checkActive_trial now subs sub c hf hs hc
  refine ⟨h1, ?_, ?_⟩
  · rw [h1]
    by_cases hle : now ≤ c + trialDaysUsed sub.trialDays * msPerDay
    · rw [if_pos hle]
      simp [hle]
    · rw [if_neg hle]
      simp [hle]
  · intro hnow
    rw [h1, if_pos (le_of_eq hnow)]
    rw [show c + trialDaysUsed sub.trialDays * msPerDay - now = 0 from by omega]
    rw [show ceilDivInt 0 msPerDay = 0 from by decide]

theorem C4_trial_window_witness :
    checkActiveSubscription 0 [⟨"pro_monthly", "ACCEPTED", some (-5 * msPerDay), some 14⟩] =
      (if (0 : Int) ≤ -5 * msPerDay + trialDaysUsed (some 14) * msPerDay then
        ⟨true, true,
          some (ceilDivInt (-5 * msPerDay + trialDaysUsed (some 14) * msPerDay - 0) msPerDay)⟩
      else ⟨false, false, none⟩) ∧
    ((checkActiveSubscription 0
        [⟨"pro_monthly", "ACCEPTED", some (-5 * msPerDay), some 14⟩]).hasAccess = true ↔
      (0 : Int) ≤ -5 * msPerDay + trialDaysUsed (some 14) * msPerDay) ∧
    ((0 : Int) = -5 * msPerDay + trialDaysUsed (some 14) * msPerDay →
      checkActiveSubscription 0 [⟨"pro_monthly", "ACCEPTED", some (-5 * msPerDay), some 14⟩] =
        ⟨true, true, some 0⟩) :=
  C4_trial_window 0 [⟨"pro_monthly", "ACCEPTED", some (-5 * msPerDay), some 14⟩]
    ⟨"pro_monthly", "ACCEPTED", some (-5 * msPerDay), some 14⟩ (-5 * msPerDay)
    (by decide) (Or.inl rfl) rfl

/-- C8: `createSubscription` fails with an error enumerating every
provider-returned error message when the error list of the provider is
non-empty; fails with the distinct missing-confirmation-URL error when
the provider returns neither errors nor a (truthy) confirmation URL;
and otherwise returns the confirmation URL of the provider. -/
theorem C8_create_offer (p : SubCreatePayload) :
    (p.userErrors ≠ [] →
      createSubscription (some p) =
        .error ("Failed to create subscription: " ++
          String.intercalate ", " p.userErrors)) ∧
    (p.userErrors = [] → (p.confirmationUrl = none ∨ p.confirmationUrl = some "") →
      createSubscription (some p) =
        .error "No confirmation URL returned from subscription creation") ∧
    (∀ url, p.userErrors = [] → p.confirmationUrl = some url → url ≠ "" →
      createSubscription (some p) = .ok url) ∧
    ("Failed to create subscription: " ++ String.intercalate ", " p.userErrors ≠
      "No confirmation URL returned from subscription creation") := by
  refine ⟨?_, ?_, ?_, ?_⟩
  · intro he
    have hlen : 0 < p.userErrors.length := List.length_pos.mpr he
    simp [createSubscription, hlen]
  · intro he hu
    rcases hu with hu | hu <;> simp [createSubscription, he, hu]
  · intro url he hu hne
    simp [createSubscription, he, hu, hne]
  · intro h
    have h2 := congrArg (fun t => t.data.head?) h
    simp [String.data_append] at h2

/-! ## Claims about the request handler composition -/

/-- C3: in the generation action, a resolver denial means the usage
counter is never invoked and the generation call never runs; a usage
denial means the generation call never runs; and the generation call
runs only when the subscription gate and the usage gate both passed. -/
theorem C3_gating (subCheck : Except String EntitlementState)
    (message tone : Option String) (today : String)
    (rd : Except String StoredValue) (wr : Except String Unit)
    (gen : Except String String) :
    (∀ st, subCheck = .ok st → st.hasAccess = false →
      (action subCheck message tone today rd wr gen).usageCalled = false ∧
      (action subCheck message tone today rd wr gen).genCalled = false) ∧
    (∀ r, checkAndIncrementUsageE today rd wr = .ok r → r.decision.allowed = false →
      (action subCheck message tone today rd wr gen).genCalled = false) ∧
    ((action subCheck message tone today rd wr gen).genCalled = true →
      (∀ st, subCheck = .ok st → st.hasAccess = true) ∧
      ∃ r, checkAndIncrementUsageE today rd wr = .ok r ∧ r.decision.allowed = true) := by
  refine ⟨?_, ?_, ?_⟩
  · intro st hok hacc
    subst hok
    simp [action, hacc]
  · intro r hr hal
    cases subCheck with
    | error e =>
      by_cases hm : (fieldMissing message || fieldMissing tone) = true
      · simp [action, hm]
      · simp [action, hm, hr, hal]
    | ok st =>
      cases hacc : st.hasAccess with
      | false => simp [action, hacc]
      | true =>
        by_cases hm : (fieldMissing message || fieldMissing tone) = true
        · simp [action, hacc, hm]
        · simp [action, hacc, hm, hr, hal]
  · intro hg
    cases subCheck with
    | error e =>
      by_cases hm : (fieldMissing message || fieldMissing tone) = true
      · simp [action, hm] at hg
      · cases hE : checkAndIncrementUsageE today rd wr with
        | error m => simp [action, hm, hE] at hg
        | ok r =>
          cases hal : r.decision.allowed with
          | false => simp [action, hm, hE, hal] at hg
          | true =>
            refine ⟨fun st2 hst2 => ?_, ⟨r, rfl, hal⟩⟩
            cases hst2
    | ok st =>
      cases hacc : st.hasAccess with
      | false => simp [action, hacc] at hg
      | true =>
        by_cases hm : (fieldMissing message || fieldMissing tone) = true
        · simp [action, hacc, hm] at hg
        · cases hE : checkAndIncrementUsageE today rd wr with
          | error m => simp [action, hacc, hm, hE] at hg
          | ok r =>
            cases hal : r.decision.allowed with
            | false => simp [action, hacc, hm, hE, hal] at hg
            | true =>
              refine ⟨fun st2 hst2 => ?_, ⟨r, rfl, hal⟩⟩
              injection hst2 with h2
              rw [← h2]
              exact hacc

theorem C3_gating_witness :
    ((action (.ok ⟨false, false, none⟩) (some "hello") (some "Polite")
        "2026-10-11" (.ok .absent) (.ok ()) (.ok "reply")).usageCalled = false ∧
      (action (.ok ⟨false, false, none⟩) (some "hello") (some "Polite")
        "2026-10-11" (.ok .absent) (.ok ()) (.ok "reply")).genCalled = false) :=
  (C3_gating (.ok ⟨false, false, none⟩) (some "hello") (some "Polite")
    "2026-10-11" (.ok .absent) (.ok ()) (.ok "reply")).1 ⟨false, false, none⟩ rfl rfl

/-- C6 counterexample: a read-path throw in the generation action is
not allowed to proceed — the action denies with the same generic
message used for write failures and never reaches the generation
call. -/
theorem C6_counterexample :
    action (.ok ⟨true, false, none⟩) (some "hello") (some "Polite") "2026-10-11"
      (.error "network read failure") (.ok ()) (.ok "reply") =
      ⟨⟨"", some "Failed to check usage limit. Please try again."⟩, true, false⟩ := by
  decide

/-- C6 (amended): the counter-failure policy of the generation action is
symmetric — any throw out of `checkAndIncrementUsage`, from the read
path or from the increment write, makes the handler deny with the same
generic message; read errors propagate out of the counter, a write
error surfaces whenever the call would write; only the page loader
proceeds without a working counter (it keeps access and shows a usage
count of 0) when the read path throws. -/
theorem C6_counter_failure_policy (st : EntitlementState) (m t today : String)
    (rd : Except String StoredValue) (wr : Except String Unit)
    (gen : Except String String) (cs : Except String String) (e : String)
    (hacc : st.hasAccess = true) (hm : m ≠ "") (ht : t ≠ "")
    (hE : checkAndIncrementUsageE today rd wr = .error e) :
    action (.ok st) (some m) (some t) today rd wr gen =
      ⟨⟨"", some "Failed to check usage limit. Please try again."⟩, true, false⟩ ∧
    (∀ em wr2, checkAndIncrementUsageE today (.error em) wr2 = .error em) ∧
    (∀ s w em, (checkAndIncrementUsage today s).wrote = some w →
      checkAndIncrementUsageE today (.ok s) (.error em) = .error em) ∧
    (∀ em, (loader (.ok st) cs today (.error em)).hasSubscription = true ∧
      (loader (.ok st) cs today (.error em)).usageCount = 0) := by
  refine ⟨?_, fun em wr2 => rfl, ?_, ?_⟩
  · simp [action, hacc, fieldMissing, hm, ht, hE]
  · intro s w em hw
    cases s with
    | absent => rfl
    | malformed => rfl
    | valid u =>
      by_cases hd : u.date ≠ today
      · rw [checkAndIncrementUsageE]
        simp only [getDailyUsage, if_pos hd]
      · by_cases hl : DAILY_LIMIT ≤ u.count
        · exfalso
          rw [checkAndIncrementUsage] at hw
          simp only [getDailyUsage, if_neg hd, if_pos hl] at hw
          cases hw
        · rw [checkAndIncrementUsageE]
          simp only [getDailyUsage, if_neg hd, if_neg hl]
  · intro em
    constructor <;> simp [loader, hacc]

theorem C6_counter_failure_policy_witness :
    (action (.ok ⟨true, false, none⟩) (some "hello") (some "Polite") "2026-10-11"
        (.error "network read failure") (.ok ()) (.ok "reply") =
      ⟨⟨"", some "Failed to check usage limit. Please try again."⟩, true, false⟩) ∧
    (∀ em wr2, checkAndIncrementUsageE "2026-10-11" (.error em) wr2 = .error em) ∧
    (∀ s w em, (checkAndIncrementUsage "2026-10-11" s).wrote = some w →
      checkAndIncrementUsageE "2026-10-11" (.ok s) (.error em) = .error em) ∧
    (∀ em,
      (loader (.ok ⟨true, false, none⟩) (.ok "u") "2026-10-11"
        (.error em)).hasSubscription = true ∧
      (loader (.ok ⟨true, false, none⟩) (.ok "u") "2026-10-11"
        (.error em)).usageCount = 0) :=
  C6_counter_failure_policy ⟨true, false, none⟩ "hello" "Polite" "2026-10-11"
    (.error "network read failure") (.ok ()) (.ok "reply") (.ok "u")
    "network read failure" rfl (by decide) (by decide) rfl

/-- C7: a thrown subscription check fails open — the generation action
behaves exactly as if the resolver had granted access, and the page
loader reports an active subscription. -/
theorem C7_fail_open (e : String) (message tone : Option String) (today : String)
    (rd : Except String StoredValue) (wr : Except String Unit)
    (gen : Except String String) (cs : Except String String) :
    action (.error e) message tone today rd wr gen =
      action (.ok ⟨true, false, none⟩) message tone today rd wr gen ∧
    (loader (.error e) cs today rd).hasSubscription = true := by
  exact ⟨rfl, rfl⟩

theorem C8_create_offer_witness :
    createSubscription (some ⟨["first error", "second error"], some "u"⟩) =
      .error ("Failed to create subscription: " ++
        String.intercalate ", " ["first error", "second error"]) ∧
    createSubscription (some ⟨[], none⟩) =
      .error "No confirmation URL returned from subscription creation" ∧
    createSubscription (some ⟨[], some "https://x"⟩) = .ok "https://x" :=
  ⟨(C8_create_offer ⟨["first error", "second error"], some "u"⟩).1 (by decide),
   (C8_create_offer ⟨[], none⟩).2.1 rfl (Or.inl rfl),
   (C8_create_offer ⟨[], some "https://x"⟩).2.2.1 "https://x" rfl rfl (by decide)⟩

end AIReview
